import Mathlib

/-!
Shallow embedding of the anchor-coupling solver `cordeAnchor`
(cordeAnchor.cpp) and of `tgDataManager::step` (tgDataManager.cpp) from the
NTRTsim repository, with the Bullet collaborator interfaces
(`btVector3`, `btTransform`, `btRigidBody`) modelled at the interface level
described in §6 of the specification.  Scalars (`btScalar`, C++ `double`)
are embedded as rationals, so all arithmetic is exact.
-/

/-- Embedding of Bullet's `btVector3`: a 3-vector of scalars. -/
@[ext]
structure btVector3 where
  x : ℚ
  y : ℚ
  z : ℚ
deriving DecidableEq, Repr

namespace btVector3

def zero : btVector3 := ⟨0, 0, 0⟩

instance : Zero btVector3 := ⟨zero⟩

def add (a b : btVector3) : btVector3 := ⟨a.x + b.x, a.y + b.y, a.z + b.z⟩

instance : Add btVector3 := ⟨add⟩

def sub (a b : btVector3) : btVector3 := ⟨a.x - b.x, a.y - b.y, a.z - b.z⟩

instance : Sub btVector3 := ⟨sub⟩

def neg (a : btVector3) : btVector3 := ⟨-a.x, -a.y, -a.z⟩

instance : Neg btVector3 := ⟨neg⟩

/-- Scalar multiplication (`btVector3 * btScalar` / `btScalar * btVector3`). -/
def smul (c : ℚ) (a : btVector3) : btVector3 := ⟨c * a.x, c * a.y, c * a.z⟩

instance : SMul ℚ btVector3 := ⟨smul⟩

/-- Bullet's `btVector3::dot`. -/
def dot (a b : btVector3) : ℚ := a.x * b.x + a.y * b.y + a.z * b.z

/-- Bullet's `btVector3::cross`. -/
def cross (a b : btVector3) : btVector3 :=
  ⟨a.y * b.z - a.z * b.y, a.z * b.x - a.x * b.z, a.x * b.y - a.y * b.x⟩

end btVector3

/-- Embedding of Bullet's `btMatrix3x3` as three rows. -/
@[ext]
structure btMatrix3x3 where
  row0 : btVector3
  row1 : btVector3
  row2 : btVector3
deriving DecidableEq, Repr

namespace btMatrix3x3

/-- Matrix–vector product: row-wise dot products, as in Bullet. -/
def mulVec (m : btMatrix3x3) (v : btVector3) : btVector3 :=
  ⟨m.row0.dot v, m.row1.dot v, m.row2.dot v⟩

/-- Bullet's `btMatrix3x3::transpose`. -/
def transpose (m : btMatrix3x3) : btMatrix3x3 :=
  ⟨⟨m.row0.x, m.row1.x, m.row2.x⟩,
   ⟨m.row0.y, m.row1.y, m.row2.y⟩,
   ⟨m.row0.z, m.row1.z, m.row2.z⟩⟩

/-- Matrix product (row i of `a` dotted with columns of `b`). -/
def mul (a b : btMatrix3x3) : btMatrix3x3 :=
  ⟨(b.transpose).mulVec a.row0, (b.transpose).mulVec a.row1,
   (b.transpose).mulVec a.row2⟩

/-- The identity matrix. -/
def identity : btMatrix3x3 := ⟨⟨1, 0, 0⟩, ⟨0, 1, 0⟩, ⟨0, 0, 1⟩⟩

/-- A rotation matrix satisfies `m * mᵀ = 1`; this is the defining
property of the basis of a rigid-body transform ("rotation+translation",
spec §6). -/
def IsRotation (m : btMatrix3x3) : Prop := m.mul m.transpose = identity

instance (m : btMatrix3x3) : Decidable m.IsRotation := by
  unfold IsRotation; infer_instance

end btMatrix3x3

/-- Embedding of Bullet's `btTransform`: rotation basis plus origin. -/
@[ext]
structure btTransform where
  basis : btMatrix3x3
  origin : btVector3
deriving DecidableEq, Repr

namespace btTransform

/-- Applying a transform to a point (`operator*(const btVector3&)`):
rotate by the basis, then translate by the origin. -/
def apply (tr : btTransform) (v : btVector3) : btVector3 :=
  tr.basis.mulVec v + tr.origin

/-- Bullet's `btTransform::inverse`: the basis is inverted by
transposition (valid because the basis of a rigid transform is a
rotation), and the origin is mapped accordingly. -/
def inverse (tr : btTransform) : btTransform :=
  let inv := tr.basis.transpose
  ⟨inv, inv.mulVec (-tr.origin)⟩

end btTransform

/-- Embedding of the `btRigidBody` collaborator at the interface the
coupler consumes (spec §6): world transform, inverse mass, linear and
angular velocity, world-space inverse inertia tensor, and the activation
flag.  The linear and angular factors of Bullet are at their default
value `(1,1,1)` and therefore omitted. -/
structure btRigidBody where
  worldTransform : btTransform
  invMass : ℚ
  linearVelocity : btVector3
  angularVelocity : btVector3
  invInertiaTensorWorld : btMatrix3x3
  isActive : Bool
deriving DecidableEq, Repr

namespace btRigidBody

/-- `btRigidBody::getCenterOfMassPosition` returns the origin of the
world transform. -/
def getCenterOfMassPosition (b : btRigidBody) : btVector3 :=
  b.worldTransform.origin

/-- `btRigidBody::getInvMass`. -/
def getInvMass (b : btRigidBody) : ℚ := b.invMass

/-- `btRigidBody::getVelocityInLocalPoint`: the velocity of the point at
the given offset from the center of mass,
`linearVelocity + angularVelocity × rel_pos`. -/
def getVelocityInLocalPoint (b : btRigidBody) (relPos : btVector3) : btVector3 :=
  b.linearVelocity + b.angularVelocity.cross relPos

/-- `btRigidBody::activate`: ensure the body is not asleep. -/
def activate (b : btRigidBody) : btRigidBody := { b with isActive := true }

/-- `btRigidBody::applyImpulse(impulse, rel_pos)`: for a body with
nonzero inverse mass, add `invMass • impulse` to the linear velocity and
`invInertiaTensorWorld * (rel_pos × impulse)` to the angular velocity; a
body with zero inverse mass (static) is left unchanged. -/
def applyImpulse (b : btRigidBody) (impulse relPos : btVector3) : btRigidBody :=
  if b.invMass ≠ 0 then
    { b with
      linearVelocity := b.linearVelocity + b.invMass • impulse
      angularVelocity :=
        b.angularVelocity + b.invInertiaTensorWorld.mulVec (relPos.cross impulse) }
  else
    b

end btRigidBody

/-- Embedding of `CordeModel::CordePositionElement`, the flexible-node
collaborator: predicted position `pos_new`, predicted velocity `vel_new`,
mass, accumulated force, and the `isAnchor` flag. -/
structure CordePositionElement where
  pos_new : btVector3
  vel_new : btVector3
  mass : ℚ
  force : btVector3
  isAnchor : Bool
deriving DecidableEq, Repr

namespace CordePositionElement

/-- Modelled from the spec: `CordeModel::CordePositionElement::applyForce`
is not among the repository sources provided; per spec §4.1 step 5 and §6
it adds the given force to the node's accumulated-force accumulator
("apply it additively to the flexible node's force accumulator"). -/
def applyForce (e : CordePositionElement) (f : btVector3) : CordePositionElement :=
  { e with force := e.force + f }

end CordePositionElement

/-- Embedding of the `cordeAnchor` object state.  The pointers to the
rigid body and to the position element are passed explicitly to each
operation (the referenced state is threaded functionally); the quaternion
element is inert in the source (only used in commented-out code) and is
omitted.  The single piece of derived state held by the anchor is
`attachedRelativeOriginalPosition` (the spec's `restOffset`). -/
structure cordeAnchor where
  attachedRelativeOriginalPosition : btVector3
deriving DecidableEq, Repr

namespace cordeAnchor

/-- The constructor `cordeAnchor::cordeAnchor(body, element, qElement,
worldPos)`: stores
`attachedRelativeOriginalPosition = body->getWorldTransform().inverse() * worldPos`
and sets `element->isAnchor = true`.  Returns the constructed anchor
together with the mutated element. -/
def construct (body : btRigidBody) (element : CordePositionElement)
    (worldPos : btVector3) : cordeAnchor × CordePositionElement :=
  (⟨(body.worldTransform.inverse).apply worldPos⟩,
   { element with isAnchor := true })

/-- The destructor `cordeAnchor::~cordeAnchor()`: sets
`element->isAnchor = false` (the pointer members are nulled, which has no
counterpart in the functional embedding). -/
def destruct (element : CordePositionElement) : CordePositionElement :=
  { element with isAnchor := false }

/-- `cordeAnchor::getWorldPosition`: the rest offset transformed by the
body's current world transform. -/
def getWorldPosition (a : cordeAnchor) (body : btRigidBody) : btVector3 :=
  body.worldTransform.apply a.attachedRelativeOriginalPosition

/-- `cordeAnchor::getRelativePosition`: the current world anchor position
minus the body's center-of-mass position. -/
def getRelativePosition (a : cordeAnchor) (body : btRigidBody) : btVector3 :=
  a.getWorldPosition body - body.getCenterOfMassPosition

/-- The local `rMass` of `cordeAnchor::solve`:
`getInvMass() > 0 ? 1/getInvMass() : 0`. -/
def rMass (body : btRigidBody) : ℚ :=
  if body.getInvMass > 0 then 1 / body.getInvMass else 0

/-- The local `massRatio` of `cordeAnchor::solve`: `1` when `rMass = 0`
(immobile body), else `rMass / (rMass + sMass)`.  (Named `massRatioOf`
in the embedding.) -/
def massRatioOf (body : btRigidBody) (element : CordePositionElement) : ℚ :=
  if rMass body = 0 then 1 else rMass body / (rMass body + element.mass)

/-- The local `posDiff` of `cordeAnchor::solve` (position mode):
`getWorldPosition() - element->pos_new`. -/
def posDiff (a : cordeAnchor) (body : btRigidBody)
    (element : CordePositionElement) : btVector3 :=
  a.getWorldPosition body - element.pos_new

/-- The local `velDiff` of `cordeAnchor::solve` (velocity mode):
`body->getVelocityInLocalPoint(getRelativePosition()) - element->vel_new`. -/
def velDiff (a : cordeAnchor) (body : btRigidBody)
    (element : CordePositionElement) : btVector3 :=
  body.getVelocityInLocalPoint (a.getRelativePosition body) - element.vel_new

/-- The result of one `solve` call: the (unchanged) anchor, the mutated
rigid body and element, and the two arguments that were passed to
`btRigidBody::applyImpulse`. -/
structure SolveResult where
  anchor : cordeAnchor
  body : btRigidBody
  element : CordePositionElement
  impulseArg : btVector3
  impulsePointArg : btVector3
deriving DecidableEq, Repr

/-- `cordeAnchor::solve(dt)` in the default position-based mode
(`SOLVE_VELOCITY` not defined).  Follows the source line by line:
`idt = 1/dt`; `posDiff = getWorldPosition() - pos_new`; the unused local
lengths `rbLength`/`softLength` are omitted; `rMass`, `sMass`,
`massRatio` as above; `rSoft = posDiff * massRatio`;
`rRigid = -posDiff * (1 - massRatio)`;
`fSoft = pow(idt,2) * sMass * rSoft`, applied to the element;
`fRigid = pow(idt,1) * rMass * rRigid + element->force * dt` where
`element->force` is read after `applyForce(fSoft)`; the body is
activated and `applyImpulse(fRigid, getRelativePosition())` is called.
The source contains no check of `dt`; its asserts only check the two
pointers, which are always valid in this embedding. -/
def solve (a : cordeAnchor) (body : btRigidBody)
    (element : CordePositionElement) (dt : ℚ) : SolveResult :=
  let idt : ℚ := 1 / dt
  let pd := a.posDiff body element
  let rM := rMass body
  let sMass := element.mass
  let mr := massRatioOf body element
  let rSoft := mr • pd
  let rRigid := (1 - mr) • (-pd)
  let fSoft := (idt ^ 2 * sMass) • rSoft
  let element' := element.applyForce fSoft
  let fRigid := (idt ^ 1 * rM) • rRigid + dt • element'.force
  let body' := (body.activate).applyImpulse fRigid (a.getRelativePosition body)
  ⟨a, body', element', fRigid, a.getRelativePosition body⟩

/-- `cordeAnchor::solve(dt)` in the alternate velocity-based mode (the
`#else` branch, compiled when `SOLVE_VELOCITY` is defined).  Follows the
source: `velDiff = getVelocityInLocalPoint(getRelativePosition()) -
vel_new`; same `rMass`/`massRatio` logic; `vSoft = velDiff * massRatio`;
`vRigid = -velDiff * (1 - massRatio)`; `fSoft = idt * sMass * vSoft`,
applied to the element; `fRigid = rMass * vRigid` (the internal-force
transfer term is commented out in this branch); the body is activated and
`applyImpulse(fRigid, getRelativePosition())` is called. -/
def solveVelocity (a : cordeAnchor) (body : btRigidBody)
    (element : CordePositionElement) (dt : ℚ) : SolveResult :=
  let idt : ℚ := 1 / dt
  let vd := a.velDiff body element
  let rM := rMass body
  let sMass := element.mass
  let mr := massRatioOf body element
  let vSoft := mr • vd
  let vRigid := (1 - mr) • (-vd)
  let fSoft := (idt * sMass) • vSoft
  let element' := element.applyForce fSoft
  let fRigid := rM • vRigid
  let body' := (body.activate).applyImpulse fRigid (a.getRelativePosition body)
  ⟨a, body', element', fRigid, a.getRelativePosition body⟩

end cordeAnchor

/-- Embedding of the `tgDataManager` state the claims concern: the three
lists of (pointers to) sensors, sensor infos, and senseables.  The
pointees are irrelevant to `step`, so pointers are modelled as opaque
identifiers. -/
structure tgDataManager where
  m_sensors : List Nat
  m_sensorInfos : List Nat
  m_senseables : List Nat
deriving DecidableEq, Repr

namespace tgDataManager

/-- `tgDataManager::step(dt)`: throws `std::invalid_argument("dt is not
positive")` when `dt <= 0`, otherwise does nothing.  The thrown exception
is modelled as an `Option String` returned beside the (unchanged) manager
state. -/
def step (m : tgDataManager) (dt : ℚ) : tgDataManager × Option String :=
  if dt ≤ 0 then (m, some "dt is not positive") else (m, none)

end tgDataManager

/-! ### Componentwise evaluation lemmas for the vector algebra -/

namespace btVector3

@[simp] lemma add_x (a b : btVector3) : (a + b).x = a.x + b.x := rfl

@[simp] lemma add_y (a b : btVector3) : (a + b).y = a.y + b.y := rfl

@[simp] lemma add_z (a b : btVector3) : (a + b).z = a.z + b.z := rfl

@[simp] lemma sub_x (a b : btVector3) : (a - b).x = a.x - b.x := rfl

@[simp] lemma sub_y (a b : btVector3) : (a - b).y = a.y - b.y := rfl

@[simp] lemma sub_z (a b : btVector3) : (a - b).z = a.z - b.z := rfl

@[simp] lemma neg_x (a : btVector3) : (-a).x = -a.x := rfl

@[simp] lemma neg_y (a : btVector3) : (-a).y = -a.y := rfl

@[simp] lemma neg_z (a : btVector3) : (-a).z = -a.z := rfl

@[simp] lemma smul_x (c : ℚ) (a : btVector3) : (c • a).x = c * a.x := rfl

@[simp] lemma smul_y (c : ℚ) (a : btVector3) : (c • a).y = c * a.y := rfl

@[simp] lemma smul_z (c : ℚ) (a : btVector3) : (c • a).z = c * a.z := rfl

@[simp] lemma zero_x : (0 : btVector3).x = 0 := rfl

@[simp] lemma zero_y : (0 : btVector3).y = 0 := rfl

@[simp] lemma zero_z : (0 : btVector3).z = 0 := rfl

lemma dot_def (a b : btVector3) : a.dot b = a.x * b.x + a.y * b.y + a.z * b.z := rfl

@[simp] lemma cross_x (a b : btVector3) : (a.cross b).x = a.y * b.z - a.z * b.y := rfl

@[simp] lemma cross_y (a b : btVector3) : (a.cross b).y = a.z * b.x - a.x * b.z := rfl

@[simp] lemma cross_z (a b : btVector3) : (a.cross b).z = a.x * b.y - a.y * b.x := rfl

end btVector3

namespace btMatrix3x3

@[simp] lemma mulVec_x (m : btMatrix3x3) (v : btVector3) : (m.mulVec v).x = m.row0.dot v := rfl

@[simp] lemma mulVec_y (m : btMatrix3x3) (v : btVector3) : (m.mulVec v).y = m.row1.dot v := rfl

@[simp] lemma mulVec_z (m : btMatrix3x3) (v : btVector3) : (m.mulVec v).z = m.row2.dot v := rfl

end btMatrix3x3

/-! ### Concrete fixtures used by the witnesses and counterexamples -/

/-- The identity transform (body at the world origin, unrotated). -/
def idTransform : btTransform := ⟨btMatrix3x3.identity, ⟨0, 0, 0⟩⟩

/-- An immovable rigid body: `invMass = 0`. -/
def exBodyStatic : btRigidBody :=
  ⟨idTransform, 0, ⟨0, 0, 0⟩, ⟨0, 0, 0⟩, btMatrix3x3.identity, false⟩

/-- A rigid body with `invMass = 1/2` (effective mass 2) at the origin. -/
def exBodyHalf : btRigidBody :=
  ⟨idTransform, 1/2, ⟨0, 0, 0⟩, ⟨0, 0, 0⟩, btMatrix3x3.identity, false⟩

/-- A rigid body with effective mass 2 and nonzero linear and angular
velocity, for the velocity-mode scenario. -/
def exBodyVel : btRigidBody :=
  ⟨idTransform, 1/2, ⟨1, 2, 3⟩, ⟨0, 0, 1⟩, btMatrix3x3.identity, false⟩

/-- A rigid body rotated 90° about the z-axis with a nonzero origin. -/
def exBodyRot : btRigidBody :=
  ⟨⟨⟨⟨0, -1, 0⟩, ⟨1, 0, 0⟩, ⟨0, 0, 1⟩⟩, ⟨3, 4, 5⟩⟩, 1, ⟨0, 0, 0⟩, ⟨0, 0, 0⟩,
   btMatrix3x3.identity, true⟩

/-- A flexible node of mass 1 at the origin with an empty force accumulator. -/
def exElemOne : CordePositionElement := ⟨⟨0, 0, 0⟩, ⟨0, 0, 0⟩, 1, ⟨0, 0, 0⟩, true⟩

/-- A flexible node of mass 2 at the origin with an empty force accumulator. -/
def exElemTwo : CordePositionElement := ⟨⟨0, 0, 0⟩, ⟨0, 0, 0⟩, 2, ⟨0, 0, 0⟩, true⟩

/-- A flexible node of mass 2 with a nonzero accumulated force. -/
def exElemF : CordePositionElement := ⟨⟨0, 0, 0⟩, ⟨0, 0, 0⟩, 2, ⟨0, 1, 0⟩, true⟩

/-- A flexible node of mass 2 with nonzero predicted velocity, for the
velocity-mode scenario. -/
def exElemVel : CordePositionElement := ⟨⟨0, 0, 0⟩, ⟨1, 0, 0⟩, 2, ⟨0, 0, 0⟩, true⟩

/-- An anchor whose rest offset is the unit x-vector. -/
def exAnchorX : cordeAnchor := ⟨⟨1, 0, 0⟩⟩

/-! ### Shared helper lemmas -/

/-- The force accumulated on the flexible node by the position-mode
`solve`, as a single algebraic expression (valid for any `dt`, since the
rational arithmetic of the embedding is total). -/
lemma solve_element_force (a : cordeAnchor) (body : btRigidBody)
    (element : CordePositionElement) (dt : ℚ) :
    (a.solve body element dt).element.force =
      element.force +
        ((1 / dt) ^ 2 * element.mass * cordeAnchor.massRatioOf body element) •
          cordeAnchor.posDiff a body element := by
  ext <;>
    simp [cordeAnchor.solve, CordePositionElement.applyForce] <;> ring

/-- A rigid transform (rotation basis) composed with its Bullet inverse is
the identity map on points. -/
lemma apply_inverse_apply (tr : btTransform) (h : tr.basis.IsRotation)
    (p : btVector3) : tr.apply (tr.inverse.apply p) = p := by
  obtain ⟨⟨⟨m00, m01, m02⟩, ⟨m10, m11, m12⟩, ⟨m20, m21, m22⟩⟩, ⟨ox, oy, oz⟩⟩ := tr
  simp only [btMatrix3x3.IsRotation, btMatrix3x3.mul, btMatrix3x3.transpose,
    btMatrix3x3.mulVec, btVector3.dot, btMatrix3x3.identity,
    btMatrix3x3.mk.injEq, btVector3.mk.injEq] at h
  obtain ⟨⟨h00, h01, h02⟩, ⟨h10, h11, h12⟩, ⟨h20, h21, h22⟩⟩ := h
  ext
  · simp [btTransform.apply, btTransform.inverse, btMatrix3x3.mulVec,
      btMatrix3x3.transpose, btVector3.dot_def]
    linear_combination (p.x - ox) * h00 + (p.y - oy) * h01 + (p.z - oz) * h02
  · simp [btTransform.apply, btTransform.inverse, btMatrix3x3.mulVec,
      btMatrix3x3.transpose, btVector3.dot_def]
    linear_combination (p.x - ox) * h10 + (p.y - oy) * h11 + (p.z - oz) * h12
  · simp [btTransform.apply, btTransform.inverse, btMatrix3x3.mulVec,
      btMatrix3x3.transpose, btVector3.dot_def]
    linear_combination (p.x - ox) * h20 + (p.y - oy) * h21 + (p.z - oz) * h22

/-! ### Claim theorems -/

/-- C1 (counterexample): for an immovable rigid body (`invMass = 0`) the
impulse vector passed to `applyImpulse` by the position-mode `solve` is
NOT in general the zero vector: with rest offset `(1,0,0)`, a node of
mass 1 at the origin with empty accumulator, and `dt = 1`, the source
computes `fRigid = element->force * dt = (1,0,0) ≠ 0` (the
`rMass`-weighted term vanishes, but the internal-force transfer term does
not). -/
theorem c1_counterexample :
    exBodyStatic.getInvMass = 0 ∧ (0 : ℚ) < 1 ∧
    (exAnchorX.solve exBodyStatic exElemOne 1).impulseArg = ⟨1, 0, 0⟩ ∧
    (⟨1, 0, 0⟩ : btVector3) ≠ ⟨0, 0, 0⟩ := by
  refine ⟨rfl, by norm_num, ?_, by norm_num⟩
  ext <;> norm_num [cordeAnchor.solve, cordeAnchor.posDiff, cordeAnchor.rMass,
    cordeAnchor.massRatioOf, cordeAnchor.getWorldPosition,
    cordeAnchor.getRelativePosition, btRigidBody.getInvMass,
    btRigidBody.getCenterOfMassPosition, btTransform.apply,
    btMatrix3x3.identity, btVector3.dot_def, CordePositionElement.applyForce,
    idTransform, exBodyStatic, exElemOne, exAnchorX]

/-- C1 (amended): for an immovable rigid body (`invMass = 0`) and
`dt > 0`, the `(1/dt)·rMass·rRigid` part of the impulse vanishes, so the
vector passed to `applyImpulse` is exactly `dt` times the node's
accumulated force (after the solve's own force application); since
Bullet's `applyImpulse` ignores impulses on a body with zero inverse
mass, the body's linear and angular velocities are unchanged (zero net
impulse received), and `massRatioOf` evaluates to exactly 1. -/
theorem c1_static_body_amended (a : cordeAnchor) (body : btRigidBody)
    (element : CordePositionElement) (dt : ℚ)
    (h0 : body.invMass = 0) (_hdt : 0 < dt) :
    (a.solve body element dt).impulseArg =
      dt • (a.solve body element dt).element.force ∧
    (a.solve body element dt).body.linearVelocity = body.linearVelocity ∧
    (a.solve body element dt).body.angularVelocity = body.angularVelocity ∧
    cordeAnchor.massRatioOf body element = 1 := by
  have hr : cordeAnchor.rMass body = 0 := by
    simp [cordeAnchor.rMass, btRigidBody.getInvMass, h0]
  have hm : cordeAnchor.massRatioOf body element = 1 := by
    simp [cordeAnchor.massRatioOf, hr]
  refine ⟨?_, ?_, ?_, hm⟩
  · ext <;> simp [cordeAnchor.solve, CordePositionElement.applyForce, hr, hm]
  · simp [cordeAnchor.solve, btRigidBody.applyImpulse, btRigidBody.activate, h0]
  · simp [cordeAnchor.solve, btRigidBody.applyImpulse, btRigidBody.activate, h0]

/-- C1 witness: the amended statement at the concrete immovable body. -/
theorem c1_static_body_amended_witness :
    exBodyStatic.invMass = 0 ∧ (0 : ℚ) < 1 ∧
    (exAnchorX.solve exBodyStatic exElemOne 1).impulseArg =
      (1 : ℚ) • (exAnchorX.solve exBodyStatic exElemOne 1).element.force ∧
    (exAnchorX.solve exBodyStatic exElemOne 1).body.linearVelocity =
      exBodyStatic.linearVelocity := by
  have h := c1_static_body_amended exAnchorX exBodyStatic exElemOne 1 rfl (by norm_num)
  exact ⟨rfl, by norm_num, h.1, h.2.1⟩

/-- C2 (counterexample): `cordeAnchor::solve` contains no check of `dt`
at all (its asserts only check the two pointers); called with
`dt = -1 ≤ 0` it silently completes, computing with `idt = 1/dt = -1` and
applying the fully-determined force `(1,0,0)` to the node — it does not
fail loudly. -/
theorem c2_counterexample :
    ((-1 : ℚ) ≤ 0) ∧
    (exAnchorX.solve exBodyHalf exElemTwo (-1)).element.force = ⟨1, 0, 0⟩ ∧
    (exAnchorX.solve exBodyHalf exElemTwo (-1)).impulsePointArg = ⟨1, 0, 0⟩ := by
  refine ⟨by norm_num, ?_, ?_⟩ <;> ext <;>
    norm_num [cordeAnchor.solve, cordeAnchor.posDiff, cordeAnchor.rMass,
      cordeAnchor.massRatioOf, cordeAnchor.getWorldPosition,
      cordeAnchor.getRelativePosition, btRigidBody.getInvMass,
      btRigidBody.getCenterOfMassPosition, btTransform.apply,
      btMatrix3x3.identity, btVector3.dot_def, CordePositionElement.applyForce,
      idTransform, exBodyHalf, exElemTwo, exAnchorX]

/-- C2 (amended): `solve` performs no validation of `dt`; for any
`dt < 0` it silently computes with `idt = 1/dt`, applying to the node the
same formula `(1/dt)² · mass · massRatio · posDiff` evaluated at the
nonpositive `dt`, and still calls `applyImpulse` at the relative anchor
position.  (At `dt = 0` the C++ double arithmetic produces an infinite
`idt`; in this exact-rational embedding `1/0 = 0`.) -/
theorem c2_silent_compute_amended (a : cordeAnchor) (body : btRigidBody)
    (element : CordePositionElement) (dt : ℚ) (_hdt : dt < 0) :
    (a.solve body element dt).element.force =
      element.force +
        ((1 / dt) ^ 2 * element.mass * cordeAnchor.massRatioOf body element) •
          cordeAnchor.posDiff a body element ∧
    (a.solve body element dt).impulsePointArg = a.getRelativePosition body :=
  ⟨solve_element_force a body element dt, rfl⟩

/-- C2 witness: the amended statement at the concrete input `dt = -1`. -/
theorem c2_silent_compute_amended_witness :
    ((-1 : ℚ) < 0) ∧
    (exAnchorX.solve exBodyHalf exElemTwo (-1)).element.force =
      exElemTwo.force +
        ((1 / (-1 : ℚ)) ^ 2 * exElemTwo.mass *
            cordeAnchor.massRatioOf exBodyHalf exElemTwo) •
          cordeAnchor.posDiff exAnchorX exBodyHalf exElemTwo :=
  ⟨by norm_num,
   (c2_silent_compute_amended exAnchorX exBodyHalf exElemTwo (-1) (by norm_num)).1⟩

/-- C3: in position mode with `dt > 0`, `solve` adds to the node's force
accumulator exactly `(1/dt)² · nodeMass · massRatio · posDiff`, where
`posDiff` is the current world anchor position minus the node's predicted
position. -/
theorem c3_position_mode_force (a : cordeAnchor) (body : btRigidBody)
    (element : CordePositionElement) (dt : ℚ) (_hdt : 0 < dt) :
    (a.solve body element dt).element.force =
      element.force +
        ((1 / dt) ^ 2 * element.mass * cordeAnchor.massRatioOf body element) •
          cordeAnchor.posDiff a body element :=
  solve_element_force a body element dt

/-- C3 witness: the spec scenario `posDiff = (1,0,0)`, node mass 2,
`massRatio = 1/2`, `dt = 1/100`, giving the applied force
`(10000, 0, 0)`. -/
theorem c3_position_mode_force_witness :
    (0 : ℚ) < 1 / 100 ∧
    cordeAnchor.massRatioOf exBodyHalf exElemTwo = 1 / 2 ∧
    cordeAnchor.posDiff exAnchorX exBodyHalf exElemTwo = ⟨1, 0, 0⟩ ∧
    (exAnchorX.solve exBodyHalf exElemTwo (1 / 100)).element.force =
      ⟨10000, 0, 0⟩ := by
  have hm : cordeAnchor.massRatioOf exBodyHalf exElemTwo = 1 / 2 := by
    norm_num [cordeAnchor.massRatioOf, cordeAnchor.rMass, btRigidBody.getInvMass,
      exBodyHalf, exElemTwo]
  have hd : cordeAnchor.posDiff exAnchorX exBodyHalf exElemTwo = ⟨1, 0, 0⟩ := by
    ext <;> norm_num [cordeAnchor.posDiff, cordeAnchor.getWorldPosition, btTransform.apply,
      btMatrix3x3.identity, btVector3.dot_def, idTransform, exBodyHalf, exElemTwo,
      exAnchorX]
  refine ⟨by norm_num, hm, hd, ?_⟩
  rw [c3_position_mode_force exAnchorX exBodyHalf exElemTwo (1 / 100) (by norm_num),
    hm, hd]
  ext <;> norm_num [exElemTwo]

/-- C4: in position mode with `dt > 0`, `solve` leaves the rigid body
activated and calls `applyImpulse` at the current relative anchor
position (world anchor position minus current center-of-mass position)
with the impulse `(1/dt) · rMass · rRigid + nodeForce · dt`, where
`rRigid = -posDiff · (1 - massRatio)` and `nodeForce` is the node's
accumulated force at application time (i.e. after step 5 added
`fSoft` to the accumulator, per the spec's step ordering). -/
theorem c4_position_mode_impulse (a : cordeAnchor) (body : btRigidBody)
    (element : CordePositionElement) (dt : ℚ) (_hdt : 0 < dt) :
    (a.solve body element dt).body.isActive = true ∧
    (a.solve body element dt).impulsePointArg =
      a.getWorldPosition body - body.getCenterOfMassPosition ∧
    (a.solve body element dt).impulseArg =
      ((1 / dt) * cordeAnchor.rMass body) •
          ((1 - cordeAnchor.massRatioOf body element) •
            (-(cordeAnchor.posDiff a body element))) +
        dt • (a.solve body element dt).element.force := by
  refine ⟨?_, rfl, ?_⟩
  · simp only [cordeAnchor.solve, btRigidBody.applyImpulse, btRigidBody.activate]
    split <;> rfl
  · ext <;> simp [cordeAnchor.solve, CordePositionElement.applyForce]

/-- C4 witness: the position-mode impulse contract at a concrete movable
body (effective mass 2) and a node with a nonzero prior accumulator. -/
theorem c4_position_mode_impulse_witness :
    (0 : ℚ) < 1 ∧
    (exAnchorX.solve exBodyHalf exElemF 1).body.isActive = true ∧
    (exAnchorX.solve exBodyHalf exElemF 1).impulsePointArg =
      exAnchorX.getWorldPosition exBodyHalf - exBodyHalf.getCenterOfMassPosition ∧
    (exAnchorX.solve exBodyHalf exElemF 1).impulseArg =
      ((1 / 1 : ℚ) * cordeAnchor.rMass exBodyHalf) •
          ((1 - cordeAnchor.massRatioOf exBodyHalf exElemF) •
            (-(cordeAnchor.posDiff exAnchorX exBodyHalf exElemF))) +
        (1 : ℚ) • (exAnchorX.solve exBodyHalf exElemF 1).element.force := by
  have h := c4_position_mode_impulse exAnchorX exBodyHalf exElemF 1 (by norm_num)
  exact ⟨by norm_num, h.1, h.2.1, h.2.2⟩

/-- C5: the mass ratio of `solve` equals `rMass / (rMass + nodeMass)`
when the effective rigid mass `rMass` is positive, equals exactly 1 when
the body's inverse mass is 0 (so `rMass = 0`), and equals exactly 1/2 for
equal positive masses. -/
theorem c5_mass_ratio_spec (body : btRigidBody) (element : CordePositionElement) :
    (0 < cordeAnchor.rMass body →
      cordeAnchor.massRatioOf body element =
        cordeAnchor.rMass body / (cordeAnchor.rMass body + element.mass)) ∧
    (body.getInvMass = 0 →
      cordeAnchor.rMass body = 0 ∧ cordeAnchor.massRatioOf body element = 1) ∧
    (0 < cordeAnchor.rMass body → element.mass = cordeAnchor.rMass body →
      cordeAnchor.massRatioOf body element = 1 / 2) := by
  refine ⟨?_, ?_, ?_⟩
  · intro h
    simp only [cordeAnchor.massRatioOf]
    rw [if_neg (ne_of_gt h)]
  · intro h
    have hr : cordeAnchor.rMass body = 0 := by simp [cordeAnchor.rMass, h]
    exact ⟨hr, by simp [cordeAnchor.massRatioOf, hr]⟩
  · intro h hm
    have hne : cordeAnchor.rMass body + cordeAnchor.rMass body ≠ 0 :=
      ne_of_gt (by linarith)
    simp only [cordeAnchor.massRatioOf]
    rw [if_neg (ne_of_gt h), hm]
    field_simp
    ring

/-- C5 witness: equal positive masses give ratio exactly 1/2, and an
immovable body gives ratio exactly 1. -/
theorem c5_mass_ratio_spec_witness :
    (0 : ℚ) < cordeAnchor.rMass exBodyHalf ∧
    exElemTwo.mass = cordeAnchor.rMass exBodyHalf ∧
    cordeAnchor.massRatioOf exBodyHalf exElemTwo = 1 / 2 ∧
    exBodyStatic.getInvMass = 0 ∧
    cordeAnchor.massRatioOf exBodyStatic exElemOne = 1 := by
  have h1 : (0 : ℚ) < cordeAnchor.rMass exBodyHalf := by
    norm_num [cordeAnchor.rMass, btRigidBody.getInvMass, exBodyHalf]
  have h2 : exElemTwo.mass = cordeAnchor.rMass exBodyHalf := by
    norm_num [cordeAnchor.rMass, btRigidBody.getInvMass, exBodyHalf, exElemTwo]
  refine ⟨h1, h2, ?_, rfl, ?_⟩
  · exact (c5_mass_ratio_spec exBodyHalf exElemTwo).2.2 h1 h2
  · exact ((c5_mass_ratio_spec exBodyStatic exElemOne).2.1 rfl).2

/-- C6: for any construction with world anchor point `p`, querying
`getWorldPosition` while the rigid body's world transform is unchanged
since construction returns `p`: the current world transform applied to
`restOffset = inverse(constructionTransform) * p` recovers `p`.  The
hypothesis states that the transform's basis is a rotation, which is the
rigid-transform invariant of the Bullet collaborator ("rotation +
translation", spec §6) and is what makes Bullet's transpose-based
`inverse` an actual inverse. -/
theorem c6_world_anchor_roundtrip (body : btRigidBody)
    (element : CordePositionElement) (worldPos : btVector3)
    (hrot : body.worldTransform.basis.IsRotation) :
    ((cordeAnchor.construct body element worldPos).1).getWorldPosition body =
      worldPos := by
  have h := apply_inverse_apply body.worldTransform hrot worldPos
  simpa [cordeAnchor.construct, cordeAnchor.getWorldPosition] using h

/-- C6 witness: the round-trip at a body rotated 90° about z with a
nonzero origin, anchor point `(7,8,9)`. -/
theorem c6_world_anchor_roundtrip_witness :
    exBodyRot.worldTransform.basis.IsRotation ∧
    ((cordeAnchor.construct exBodyRot exElemOne ⟨7, 8, 9⟩).1).getWorldPosition
        exBodyRot = ⟨7, 8, 9⟩ := by
  have hrot : exBodyRot.worldTransform.basis.IsRotation := by
    norm_num [btMatrix3x3.IsRotation, btMatrix3x3.mul, btMatrix3x3.transpose,
      btMatrix3x3.mulVec, btVector3.dot_def, btMatrix3x3.identity, exBodyRot]
  exact ⟨hrot, c6_world_anchor_roundtrip exBodyRot exElemOne ⟨7, 8, 9⟩ hrot⟩

/-- C7: in velocity mode with `dt > 0`, `solveVelocity` uses the velocity
disagreement `velDiff` (rigid-body velocity at the anchor point minus the
node's predicted velocity), adds `(1/dt) · nodeMass · massRatio · velDiff`
to the node's force accumulator, and passes to `applyImpulse` the impulse
`rMass · vRigid` with `vRigid = -velDiff · (1 - massRatio)` — with no
internal-force transfer term (the impulse does not depend on the node's
accumulated force), unlike position mode. -/
theorem c7_velocity_mode (a : cordeAnchor) (body : btRigidBody)
    (element : CordePositionElement) (dt : ℚ) (_hdt : 0 < dt) :
    cordeAnchor.velDiff a body element =
      body.getVelocityInLocalPoint (a.getRelativePosition body) -
        element.vel_new ∧
    (a.solveVelocity body element dt).element.force =
      element.force +
        ((1 / dt) * element.mass * cordeAnchor.massRatioOf body element) •
          cordeAnchor.velDiff a body element ∧
    (a.solveVelocity body element dt).impulseArg =
      cordeAnchor.rMass body •
        ((1 - cordeAnchor.massRatioOf body element) •
          (-(cordeAnchor.velDiff a body element))) ∧
    (∀ f, (a.solveVelocity body { element with force := f } dt).impulseArg =
      (a.solveVelocity body element dt).impulseArg) ∧
    (a.solveVelocity body element dt).impulsePointArg =
      a.getRelativePosition body := by
  refine ⟨rfl, ?_, rfl, fun f => rfl, rfl⟩
  ext <;> simp [cordeAnchor.solveVelocity, CordePositionElement.applyForce] <;> ring

/-- C7 witness: the velocity-mode contract at a body of effective mass 2
with linear velocity `(1,2,3)` and angular velocity `(0,0,1)`, and a node
of mass 2 with predicted velocity `(1,0,0)`: the applied force is
`(0,3,3)` and the applied impulse `(0,-3,-3)`. -/
theorem c7_velocity_mode_witness :
    (0 : ℚ) < 1 ∧
    (exAnchorX.solveVelocity exBodyVel exElemVel 1).element.force = ⟨0, 3, 3⟩ ∧
    (exAnchorX.solveVelocity exBodyVel exElemVel 1).impulseArg = ⟨0, -3, -3⟩ := by
  have h := c7_velocity_mode exAnchorX exBodyVel exElemVel 1 (by norm_num)
  refine ⟨by norm_num, ?_, ?_⟩
  · rw [h.2.1]
    ext <;> norm_num [cordeAnchor.velDiff, cordeAnchor.massRatioOf,
      cordeAnchor.rMass, cordeAnchor.getRelativePosition,
      cordeAnchor.getWorldPosition, btRigidBody.getInvMass,
      btRigidBody.getCenterOfMassPosition, btRigidBody.getVelocityInLocalPoint,
      btTransform.apply, btMatrix3x3.identity, btVector3.dot_def, idTransform,
      exBodyVel, exElemVel, exAnchorX]
  · rw [h.2.2.1]
    ext <;> norm_num [cordeAnchor.velDiff, cordeAnchor.massRatioOf,
      cordeAnchor.rMass, cordeAnchor.getRelativePosition,
      cordeAnchor.getWorldPosition, btRigidBody.getInvMass,
      btRigidBody.getCenterOfMassPosition, btRigidBody.getVelocityInLocalPoint,
      btTransform.apply, btMatrix3x3.identity, btVector3.dot_def, idTransform,
      exBodyVel, exElemVel, exAnchorX]

/-- C8: the constructor sets the flexible node's `isAnchor` flag to
`true`, and the destructor sets it to `false`.  The destructor clause
holds for an arbitrary prior element state `e`, so after the destructor
runs the flag is `false` regardless of any earlier construct/destruct
ordering on that node. -/
theorem c8_anchor_flag (body : btRigidBody) (element e : CordePositionElement)
    (worldPos : btVector3) :
    ((cordeAnchor.construct body element worldPos).2).isAnchor = true ∧
    (cordeAnchor.destruct e).isAnchor = false :=
  ⟨rfl, rfl⟩

/-- C9: `attachedRelativeOriginalPosition` (the spec's `restOffset`) is
computed exactly once at construction — as the inverse of the
construction-time world transform applied to the world anchor point — and
no later operation modifies it: both solve modes return the anchor with
the field unchanged.  The queries `getWorldPosition` and
`getRelativePosition` are effect-free in the source (they only read
state), which the embedding reflects by their returning a plain
vector. -/
theorem c9_rest_offset_frame (a : cordeAnchor) (body : btRigidBody)
    (element e2 : CordePositionElement) (dt : ℚ) (worldPos : btVector3) :
    ((cordeAnchor.construct body e2 worldPos).1).attachedRelativeOriginalPosition =
      (body.worldTransform.inverse).apply worldPos ∧
    (a.solve body element dt).anchor.attachedRelativeOriginalPosition =
      a.attachedRelativeOriginalPosition ∧
    (a.solveVelocity body element dt).anchor.attachedRelativeOriginalPosition =
      a.attachedRelativeOriginalPosition :=
  ⟨rfl, rfl, rfl⟩

/-- C10: `tgDataManager::step(dt)` throws `std::invalid_argument`
("dt is not positive") exactly when `dt ≤ 0`, and in both the throwing
and the non-throwing case leaves the manager's state — the sensors,
sensor-infos, and senseables lists — unchanged. -/
theorem c10_step_spec (m : tgDataManager) (dt : ℚ) :
    (m.step dt).1 = m ∧
    ((m.step dt).2 = some "dt is not positive" ↔ dt ≤ 0) := by
  constructor
  · unfold tgDataManager.step; split <;> rfl
  · unfold tgDataManager.step; split <;> simp [*]

/-- C10 witness: `step` at a concrete manager with nonempty lists, once
with `dt = -1` (throws, state unchanged) and once with `dt = 1` (no
throw, state unchanged). -/
theorem c10_step_spec_witness :
    ((tgDataManager.mk [1] [2] [3]).step (-1)).1 = tgDataManager.mk [1] [2] [3] ∧
    ((tgDataManager.mk [1] [2] [3]).step (-1)).2 = some "dt is not positive" ∧
    ((tgDataManager.mk [1] [2] [3]).step 1).1 = tgDataManager.mk [1] [2] [3] ∧
    ((tgDataManager.mk [1] [2] [3]).step 1).2 = none := by
  refine ⟨(c10_step_spec ⟨[1], [2], [3]⟩ (-1)).1,
    (c10_step_spec ⟨[1], [2], [3]⟩ (-1)).2.mpr (by norm_num),
    (c10_step_spec ⟨[1], [2], [3]⟩ 1).1, ?_⟩
  norm_num [tgDataManager.step]
